import Mathlib

/-!
Verification of the SlimeVR-Rust firmware's IMU layer and boot sequence.

Shallow embedding of:
- `src/firmware/src/imu/drivers/stubbed.rs` (the Stub/Fake IMU driver),
- `src/firmware/src/imu/mpu6050.rs` (the real MPU6050 sensor driver),
- `src/firmware/src/main.rs` (the boot sequence / task orchestration).

Rust `f32` values are modelled as real numbers; `embassy_time::Instant` tick
counts (`u64`, read out as microseconds via `as_micros`) are modelled as `Nat`
microsecond counts.  Rust computations that may `panic!` (via `.unwrap()` or
`StaticCell::init` on an already-initialized cell) return an `Outcome` whose
`panicked` constructor marks the abort; computations that cannot panic return
plain values.  `nb::Result<T, E> = Result<T, nb::Error<E>>` is modelled as
`Except (NbError E) T`.
-/

namespace SlimeVR

/-- Outcome of a Rust computation that may `panic!` (process abort):
either the process aborts, or a value is returned. -/
inductive Outcome (A : Type) where
  | panicked
  | value (a : A)

/-- `nb::Error<E>`: either `WouldBlock` (sensor has no fresh data yet) or a
hard error `Other(e)` of the driver's associated error type. -/
inductive NbError (E : Type) where
  | wouldBlock
  | other (e : E)

/-- Modelled from the spec: the Device Identity Tag (`firmware_protocol::ImuType`,
whose defining crate is not under `src/`) — "a small enumerated value (including
an explicit \x22unknown/other\x22 variant carrying a raw code)". Only the variants the
embedded drivers name are included. -/
inductive ImuType where
  | mpu6050
  | unknown (code : Nat)
deriving DecidableEq

/-- A quaternion with scalar part `w` and vector part `(x, y, z)`, the `Quat`
orientation-sample type of the firmware (`nalgebra::UnitQuaternion<f32>`),
components over the reals. -/
structure Quat where
  w : ℝ
  x : ℝ
  y : ℝ
  z : ℝ

/-- `Quat::identity()`: the identity rotation `1 + 0i + 0j + 0k`. -/
def Quat.identity : Quat := ⟨1, 0, 0, 0⟩

/-- Squared norm of a quaternion. -/
def Quat.normSq (q : Quat) : ℝ := q.w ^ 2 + q.x ^ 2 + q.y ^ 2 + q.z ^ 2

/-- Norm of a quaternion. -/
noncomputable def Quat.norm (q : Quat) : ℝ := Real.sqrt q.normSq

/-- `Quat::from_euler_angles(roll, pitch, yaw)` (nalgebra): builds a quaternion
from half-angle sines and cosines of roll, pitch and yaw, in that argument
order (intrinsic roll-pitch-yaw convention). -/
noncomputable def Quat.fromEulerAngles (roll pitch yaw : ℝ) : Quat :=
  let sr := Real.sin (roll * 0.5)
  let cr := Real.cos (roll * 0.5)
  let sp := Real.sin (pitch * 0.5)
  let cp := Real.cos (pitch * 0.5)
  let sy := Real.sin (yaw * 0.5)
  let cy := Real.cos (yaw * 0.5)
  ⟨cr * cp * cy + sr * sp * sy,
   sr * cp * cy - cr * sp * sy,
   cr * sp * cy + sr * cp * sy,
   cr * cp * sy - sr * sp * cy⟩

/-- The half-angle product formula yields a quaternion of squared norm one. -/
theorem Quat.normSq_fromEulerAngles (roll pitch yaw : ℝ) :
    (Quat.fromEulerAngles roll pitch yaw).normSq = 1 := by
  have hr := Real.sin_sq_add_cos_sq (roll * 0.5)
  have hp := Real.sin_sq_add_cos_sq (pitch * 0.5)
  have hy := Real.sin_sq_add_cos_sq (yaw * 0.5)
  simp only [Quat.fromEulerAngles, Quat.normSq]
  linear_combination
    ((Real.sin (pitch * 0.5) ^ 2 + Real.cos (pitch * 0.5) ^ 2) *
        (Real.sin (yaw * 0.5) ^ 2 + Real.cos (yaw * 0.5) ^ 2)) * hr +
      (Real.sin (yaw * 0.5) ^ 2 + Real.cos (yaw * 0.5) ^ 2) * hp + hy

/-- Euler-built quaternions are unit quaternions. -/
theorem Quat.norm_fromEulerAngles (roll pitch yaw : ℝ) :
    (Quat.fromEulerAngles roll pitch yaw).norm = 1 := by
  rw [Quat.norm, Quat.normSq_fromEulerAngles]
  exact Real.sqrt_one

/-- The identity quaternion has squared norm one. -/
theorem Quat.normSq_identity : Quat.identity.normSq = 1 := by
  simp [Quat.identity, Quat.normSq]

/-- The identity quaternion has norm one. -/
theorem Quat.norm_identity : Quat.identity.norm = 1 := by
  rw [Quat.norm, Quat.normSq_identity]
  exact Real.sqrt_one

/-! ## Stub driver (`src/firmware/src/imu/drivers/stubbed.rs`) -/

/-- `struct FakeImu;` — the stateless Stub driver. -/
structure FakeImu where

/-- `FakeImu`'s `IMU_TYPE` associated constant: `ImuType::Unknown(0xFF)`. -/
def FakeImu.imuType : ImuType := .unknown 0xFF

/-- `FakeImu::quat`: `Ok(Quat::identity())`, with the (stateless) driver state
unchanged.  The associated error type is `()`. -/
def FakeImu.quat (s : FakeImu) : Except (NbError Unit) Quat × FakeImu :=
  (.ok Quat.identity, s)

/-- `n` sequential calls of `FakeImu::quat`, threading the driver state,
collecting each call's returned `nb::Result`. -/
def runFakeImu : Nat → FakeImu → List (Except (NbError Unit) Quat)
  | 0, _ => []
  | n + 1, s => (FakeImu.quat s).1 :: runFakeImu n (FakeImu.quat s).2

/-! ## Real sensor driver (`src/firmware/src/imu/mpu6050.rs`)

The MPU hardware handle is not modelled directly: each bus interaction's
result (`Mpu9250::imu` configuration, `calibrate_at_rest`, `all()` burst read)
is injected as an argument, and the wall clock (`Instant::now()`) as a `Nat`
microsecond count.  The DCMIMU complementary filter (external crate `dcmimu`)
is kept abstract: a state type `D` with an update function returning Euler
angles, gyro biases, and the successor filter state. -/

/-- One synchronized accelerometer/gyroscope/temperature burst read
(`mpu9250::ImuMeasurements<[f32; 3]>`). -/
structure Measurements where
  ax : ℝ
  ay : ℝ
  az : ℝ
  gx : ℝ
  gy : ℝ
  gz : ℝ
  temp : ℝ

/-- `dcmimu::EulerAngles` (Tait-Bryan angles, radians). -/
structure EulerAngles where
  yaw : ℝ
  pitch : ℝ
  roll : ℝ

/-- Driver state of `Mpu6050<I>`: `last: Instant` (microsecond count) and
`dcm: DCMIMU` (abstract filter state `D`).  The `mpu` bus handle is modelled
by injecting each read's result. -/
structure Mpu6050 (D : Type) where
  last : Nat
  dcm : D

/-- `elapsed.as_micros() as f32 / 1_000_000.0`: microseconds to seconds. -/
noncomputable def elapsedSeconds (micros : Nat) : ℝ := (micros : ℝ) / 1000000

/-- `Mpu6050`'s `IMU_TYPE` associated constant: `ImuType::Mpu6050`. -/
def Mpu6050.imuType : ImuType := .mpu6050

/-- `Mpu6050::new`: the `Mpu9250::imu(..)` configuration result is
`.unwrap()`ed (an `Err` aborts with a panic); the `calibrate_at_rest` result
is bound to `_` and discarded whether it succeeded or failed; the driver is
returned as `Ok(Self { last: Instant::now(), mpu, dcm: DCMIMU::new() })`.
`E` is `mpu9250::Error<..>`, `C` the (identical in source, here free)
calibration error type; `calib` carries the `[f32; 3]` at-rest vector. -/
def Mpu6050.new (E C D : Type) (cfg : Except E Unit)
    (calib : Except C (ℝ × ℝ × ℝ)) (dcmInit : D) (now : Nat) :
    Outcome (Except E (Mpu6050 D)) :=
  match cfg with
  | .error _ => .panicked
  | .ok _ =>
    match calib with
    | _ => .value (.ok ⟨now, dcmInit⟩)

/-- `Mpu6050::quat` (`fn quat(&mut self) -> nb::Result<Quat, Self::Error>`):
the burst read `self.mpu.all::<[f32; 3]>()` is `.unwrap()`ed (a bus error
aborts with a panic); on success, `elapsed = last.elapsed()` (here
`now - last`), `last += elapsed`, the filter is updated with gyro, accel and
elapsed seconds, and `Ok(Quat::from_euler_angles(roll, pitch, yaw))` is
returned. -/
noncomputable def Mpu6050.quat (D E : Type)
    (dcmUpdate : D → ℝ × ℝ × ℝ → ℝ × ℝ × ℝ → ℝ → EulerAngles × (ℝ × ℝ × ℝ) × D)
    (st : Mpu6050 D) (readRes : Except E Measurements) (now : Nat) :
    Outcome (Except (NbError E) Quat × Mpu6050 D) :=
  match readRes with
  | .error _ => .panicked
  | .ok m =>
    let elapsed := now - st.last
    let r := dcmUpdate st.dcm (m.gx, m.gy, m.gz) (m.ax, m.ay, m.az)
      (elapsedSeconds elapsed)
    .value (.ok (Quat.fromEulerAngles r.1.roll r.1.pitch r.1.yaw),
      ⟨st.last + elapsed, r.2.2⟩)

/-- Runs a sequence of successful `quat()` cycles: each input is the burst
read's measurements plus that cycle's wall-clock reading; returns the final
driver state together with the list of individually measured elapsed deltas
(`d1..dn` of the spec's elapsed-time accumulation property). -/
noncomputable def runQuat (D : Type)
    (dcmUpdate : D → ℝ × ℝ × ℝ → ℝ × ℝ × ℝ → ℝ → EulerAngles × (ℝ × ℝ × ℝ) × D) :
    List (Measurements × Nat) → Mpu6050 D → Mpu6050 D × List Nat
  | [], st => (st, [])
  | (m, now) :: rest, st =>
    match Mpu6050.quat D Unit dcmUpdate st (.ok m) now with
    | .panicked => (st, [])
    | .value (_, st2) =>
      let d := now - st.last
      let out := runQuat D dcmUpdate rest st2
      (out.1, d :: out.2)

/-- `true` iff the outcome returned the `Err` variant (no panic). -/
def isErrValue (E A : Type) (o : Outcome (Except E A)) : Bool :=
  match o with
  | .value (.error _) => true
  | _ => false

/-- `true` iff a `quat()` outcome returned `Err(nb::Error::Other(_))`, the
driver's associated error value. -/
def isErrReturn (D E : Type)
    (o : Outcome (Except (NbError E) Quat × Mpu6050 D)) : Bool :=
  match o with
  | .value (.error (NbError.other _), _) => true
  | _ => false

/-- `true` iff a `quat()` outcome returned `Ok` with an orientation sample. -/
def returnsOkSample (D E : Type)
    (o : Outcome (Except (NbError E) Quat × Mpu6050 D)) : Bool :=
  match o with
  | .value (.ok _, _) => true
  | _ => false

/-- Concrete trivial filter for witnesses: ignores its inputs and returns
zero angles, zero biases, unchanged state. -/
def dcmU0 : Unit → ℝ × ℝ × ℝ → ℝ × ℝ × ℝ → ℝ → EulerAngles × (ℝ × ℝ × ℝ) × Unit :=
  fun s _ _ _ => (⟨0, 0, 0⟩, (0, 0, 0), s)

/-- Concrete driver state for witnesses. -/
def st0 : Mpu6050 Unit := ⟨0, ()⟩

/-- Concrete all-zero measurements for witnesses. -/
def m0 : Measurements := ⟨0, 0, 0, 0, 0, 0, 0⟩

/-! ## Factory signatures (`new_imu` in `stubbed.rs` and `mpu6050.rs`)

The two compile-time-selectable factory functions, described by the data that
distinguishes their interfaces: whether they take an I2C capability, the bit
width `w` of the `&mut impl DelayMs<u_w>` delay parameter, and which IMU
capability trait the returned opaque type implements. -/

/-- The IMU capability trait named in a factory's `impl Trait` return type. -/
inductive ImuContract where
  | imu
  | fusedImu
deriving DecidableEq, BEq

/-- Interface description of a driver factory function. -/
structure FactorySig where
  takes_i2c : Bool
  delay_ms_width : Nat
  returns_impl : ImuContract
deriving DecidableEq, BEq

/-- `mpu6050.rs`: `pub fn new_imu(i2c: impl I2c, delay: &mut impl DelayMs<u8>)
-> impl crate::imu::Imu`. -/
def mpu6050_new_imu_sig : FactorySig := ⟨true, 8, .imu⟩

/-- `stubbed.rs`: `pub fn new_imu(_i2c: impl I2c, _delay: &mut impl
DelayMs<u32>) -> impl crate::imu::FusedImu`. -/
def stub_new_imu_sig : FactorySig := ⟨true, 32, .fusedImu⟩

/-! ## Boot sequence (`src/firmware/src/main.rs`)

`fn main() -> !` as a trace of boot events, parameterized by the `bbq`
diagnostic-log-capture feature flag (`#[cfg(bbq)]`). The spawns happen inside
the closure that `Executor::run` calls before entering its endless poll loop;
`runScheduler` marks entry into that loop. -/

/-- The fixed task set spawned by `main`. -/
inductive TaskName where
  | network
  | protocol
  | imu
  | bbqLogger
deriving DecidableEq, BEq

/-- One step of the boot sequence of `main`. -/
inductive BootEvent where
  | initBbqQueue
  | setupGlobals
  | getPeripherals
  | settleDelayMs (ms : Nat)
  | initPacketStore
  | initExecutor
  | spawnTask (t : TaskName)
  | runScheduler
deriving DecidableEq, BEq

/-- The boot trace of `main`: `defmt_bbq::init()` (only under `cfg(bbq)`),
`globals::setup()`, `get_peripherals()`, `delay_ms(500)`, `PACKETS.init(..)`,
`EXECUTOR.init(..)`, then inside `.run`'s closure the spawns of
`network_task`, `protocol_task`, `imu_task` and (only under `cfg(bbq)`)
`logger_task`, then the scheduler's poll loop. -/
def mainBootEvents (bbq : Bool) : List BootEvent :=
  (if bbq then [.initBbqQueue] else []) ++
  [.setupGlobals, .getPeripherals, .settleDelayMs 500, .initPacketStore,
   .initExecutor, .spawnTask .network, .spawnTask .protocol, .spawnTask .imu] ++
  (if bbq then [.spawnTask .bbqLogger] else []) ++
  [.runScheduler]

/-- The two process phases of the design: strictly sequential boot (at event
index `k`), then running forever. -/
inductive Phase where
  | booting (k : Nat)
  | running
deriving DecidableEq

/-- Process phase transition: boot advances one event at a time and enters
`running` after the last boot event; `Executor::run` never returns, so
`running` has no outgoing transition. -/
def stepPhase (bbq : Bool) : Phase → Phase
  | .booting k =>
    if k + 1 < (mainBootEvents bbq).length then .booting (k + 1) else .running
  | .running => .running

/-- Scans a boot trace: `false` iff some task spawn occurs before
`get_peripherals` has completed. -/
def spawnsAfterProvision : List BootEvent → Bool
  | [] => true
  | BootEvent.spawnTask _ :: _ => false
  | BootEvent.getPeripherals :: _ => true
  | _ :: rest => spawnsAfterProvision rest

/-- `static_cell::StaticCell<T>`: a cell that is either uninitialized or
initialized. -/
structure StaticCell (A : Type) where
  initialized : Bool

/-- `StaticCell::init(val)`: panics if the cell was already initialized,
otherwise stores the value and marks the cell initialized. -/
def StaticCell.init (A : Type) (c : StaticCell A) (v : A) :
    Outcome (A × StaticCell A) :=
  if c.initialized then .panicked else .value (v, ⟨true⟩)

/-! ## Claim theorems -/

/-- Claim C1, counterexample: at a concrete failed bus read (`Err(())` from
the burst read, wall clock 7), `Mpu6050::quat` panics — the failure is
escalated to a process abort, and the outcome is not a return of the driver's
associated error value, contradicting the claim that the failure propagates
to the caller as that error. -/
theorem mpu6050_quat_bus_error_no_err_return_cex :
    Mpu6050.quat Unit Unit dcmU0 st0 (Except.error ()) 7 = Outcome.panicked ∧
    isErrReturn Unit Unit (Mpu6050.quat Unit Unit dcmU0 st0 (Except.error ()) 7)
      = false :=
  ⟨rfl, rfl⟩

/-- Claim C1, amended: when the bus read of the accelerometer/gyroscope/
temperature triple fails, `Mpu6050::quat` does not propagate the failure as
the driver's associated error value — it `.unwrap()`s the read result, so the
cycle aborts the whole process with a panic, and no call of `quat()` (failed
or successful read) ever returns the `Err(Other(_))` variant to the caller. -/
theorem mpu6050_quat_bus_error_panics :
    ∀ (D E : Type)
      (dcmUpdate : D → ℝ × ℝ × ℝ → ℝ × ℝ × ℝ → ℝ → EulerAngles × (ℝ × ℝ × ℝ) × D)
      (st : Mpu6050 D) (e : E) (now : Nat),
      Mpu6050.quat D E dcmUpdate st (.error e) now = Outcome.panicked ∧
      ∀ readRes : Except E Measurements,
        isErrReturn D E (Mpu6050.quat D E dcmUpdate st readRes now) = false := by
  intro D E dcmUpdate st e now
  refine ⟨rfl, ?_⟩
  intro readRes
  cases readRes <;> simp [Mpu6050.quat, isErrReturn]

/-- Claim C3: for any number `n` of sequential calls, the Stub driver's
`quat()` returns `Ok(Quat::identity())` on every call — never would-block,
never an error — and its device identity tag is the explicit unknown variant
carrying the sentinel code `0xFF`. -/
theorem fake_imu_quat_always_identity :
    (∀ (n : Nat) (s : FakeImu),
      runFakeImu n s = List.replicate n (Except.ok Quat.identity)) ∧
    FakeImu.imuType = ImuType.unknown 0xFF := by
  refine ⟨?_, rfl⟩
  intro n
  induction n with
  | zero => intro s; rfl
  | succ k ih => intro s; simp [runFakeImu, FakeImu.quat, List.replicate, ih]

/-- Claim C5: construction of the real sensor driver succeeds even when the
at-rest calibration pass fails — with a successful configuration, `new`
returns `Ok` of a usable driver for a failed calibration; the returned value
is independent of the calibration result (it is discarded, not propagated);
and a subsequent `quat()` call of the constructed driver with a successful
bus read returns an orientation sample. -/
theorem mpu6050_new_tolerates_calibration_failure :
    ∀ (C D : Type) (c : C) (dcmInit : D) (now : Nat)
      (dcmUpdate : D → ℝ × ℝ × ℝ → ℝ × ℝ × ℝ → ℝ → EulerAngles × (ℝ × ℝ × ℝ) × D)
      (m : Measurements) (now2 : Nat),
      Mpu6050.new Unit C D (.ok ()) (.error c) dcmInit now
        = Outcome.value (.ok ⟨now, dcmInit⟩) ∧
      (∀ (C2 E : Type) (cfg : Except E Unit) (calib1 : Except C (ℝ × ℝ × ℝ))
          (calib2 : Except C2 (ℝ × ℝ × ℝ)),
        Mpu6050.new E C D cfg calib1 dcmInit now
          = Mpu6050.new E C2 D cfg calib2 dcmInit now) ∧
      returnsOkSample D Unit
        (Mpu6050.quat D Unit dcmUpdate ⟨now, dcmInit⟩ (.ok m) now2) = true := by
  intro C D c dcmInit now dcmUpdate m now2
  refine ⟨rfl, ?_, ?_⟩
  · intro C2 E cfg calib1 calib2
    cases cfg <;> rfl
  · simp [Mpu6050.quat, returnsOkSample]

/-- Claim C10: `Mpu6050::new` never returns the `Err` variant of its declared
`Result` type: for every configuration and calibration result the outcome is
never a returned `Err`, and a failing configuration — the only fallible step
whose error type matches the declared one — aborts with a panic (it is
`.unwrap()`ed) instead of returning. -/
theorem mpu6050_new_never_returns_err :
    (∀ (E C D : Type) (cfg : Except E Unit) (calib : Except C (ℝ × ℝ × ℝ))
        (dcmInit : D) (now : Nat),
      isErrValue E (Mpu6050 D) (Mpu6050.new E C D cfg calib dcmInit now)
        = false) ∧
    (∀ (E C D : Type) (e : E) (calib : Except C (ℝ × ℝ × ℝ)) (dcmInit : D)
        (now : Nat),
      Mpu6050.new E C D (.error e) calib dcmInit now = Outcome.panicked) := by
  constructor
  · intro E C D cfg calib dcmInit now
    cases cfg <;> rfl
  · intro E C D e calib dcmInit now
    rfl

/-- Claim C2: every orientation sample returned by any driver's `quat()` —
the Stub driver and the Mpu6050 driver — is a valid unit quaternion: its norm
is within `1e-4` of `1.0` (here it is exactly `1` over the reals). -/
theorem driver_quat_unit_norm :
    (∀ (s s2 : FakeImu) (q : Quat),
      FakeImu.quat s = (.ok q, s2) → |q.norm - 1| ≤ 1 / 10000) ∧
    (∀ (D E : Type)
      (dcmUpdate : D → ℝ × ℝ × ℝ → ℝ × ℝ × ℝ → ℝ → EulerAngles × (ℝ × ℝ × ℝ) × D)
      (st st2 : Mpu6050 D) (readRes : Except E Measurements) (now : Nat)
      (q : Quat),
      Mpu6050.quat D E dcmUpdate st readRes now = .value (.ok q, st2) →
        |q.norm - 1| ≤ 1 / 10000) := by
  constructor
  · intro s s2 q h
    simp only [FakeImu.quat, Prod.mk.injEq, Except.ok.injEq] at h
    rw [← h.1, Quat.norm_identity]
    norm_num
  · intro D E dcmUpdate st st2 readRes now q h
    cases readRes with
    | error e => simp [Mpu6050.quat] at h
    | ok m =>
      simp only [Mpu6050.quat, Outcome.value.injEq, Prod.mk.injEq,
        Except.ok.injEq] at h
      rw [← h.1, Quat.norm_fromEulerAngles]
      norm_num

/-- Claim C2, witness: the identity sample of the Stub and a concrete Mpu6050
sample (zero filter output) both have norm within `1e-4` of `1.0`. -/
theorem driver_quat_unit_norm_witness :
    |Quat.identity.norm - 1| ≤ 1 / 10000 ∧
    |(Quat.fromEulerAngles 0 0 0).norm - 1| ≤ 1 / 10000 :=
  ⟨driver_quat_unit_norm.1 ⟨⟩ ⟨⟩ Quat.identity rfl,
   driver_quat_unit_norm.2 Unit Unit dcmU0 st0 ⟨0, ()⟩ (.ok m0) 0
     (Quat.fromEulerAngles 0 0 0) rfl⟩

/-- Claim C4: over any sequence of successful `quat()` cycles with measured
elapsed deltas `d1..dn`, the internal `last` sample-time marker after the
`n`-th cycle equals its initial value plus `d1 + ... + dn`: each cycle
advances the marker by exactly the measured elapsed amount. -/
theorem mpu6050_last_sample_time_additive :
    ∀ (D : Type)
      (dcmUpdate : D → ℝ × ℝ × ℝ → ℝ × ℝ × ℝ → ℝ → EulerAngles × (ℝ × ℝ × ℝ) × D)
      (inputs : List (Measurements × Nat)) (st : Mpu6050 D),
      (runQuat D dcmUpdate inputs st).1.last
        = st.last + ((runQuat D dcmUpdate inputs st).2).sum := by
  intro D dcmUpdate inputs
  induction inputs with
  | nil => intro st; simp [runQuat]
  | cons p rest ih =>
    intro st
    obtain ⟨m, now⟩ := p
    simp only [runQuat, Mpu6050.quat]
    rw [ih]
    simp only [List.sum_cons]
    omega

/-- Claim C8: on every successful cycle, the real sensor driver's output is
obtained by converting the filter's roll/pitch/yaw triple to a quaternion via
`Quat::from_euler_angles` with argument order roll, pitch, yaw, and that
quaternion (of unit squared norm) is returned as the orientation sample. -/
theorem mpu6050_quat_from_euler_conversion :
    (∀ (D E : Type)
      (dcmUpdate : D → ℝ × ℝ × ℝ → ℝ × ℝ × ℝ → ℝ → EulerAngles × (ℝ × ℝ × ℝ) × D)
      (st : Mpu6050 D) (m : Measurements) (now : Nat),
      Mpu6050.quat D E dcmUpdate st (.ok m) now =
        Outcome.value (.ok (Quat.fromEulerAngles
            ((dcmUpdate st.dcm (m.gx, m.gy, m.gz) (m.ax, m.ay, m.az)
                (elapsedSeconds (now - st.last))).1.roll)
            ((dcmUpdate st.dcm (m.gx, m.gy, m.gz) (m.ax, m.ay, m.az)
                (elapsedSeconds (now - st.last))).1.pitch)
            ((dcmUpdate st.dcm (m.gx, m.gy, m.gz) (m.ax, m.ay, m.az)
                (elapsedSeconds (now - st.last))).1.yaw)),
          ⟨st.last + (now - st.last),
            (dcmUpdate st.dcm (m.gx, m.gy, m.gz) (m.ax, m.ay, m.az)
                (elapsedSeconds (now - st.last))).2.2⟩)) ∧
    (∀ roll pitch yaw : ℝ,
      (Quat.fromEulerAngles roll pitch yaw).normSq = 1) := by
  constructor
  · intro D E dcmUpdate st m now
    rfl
  · exact Quat.normSq_fromEulerAngles

/-- Claim C6: in every boot (with or without the diagnostic-log feature),
peripheral provisioning completes before any task is spawned, the
Outgoing-Packet Store and the scheduler are each initialized exactly once in
the boot trace, and a second initialization attempt of a `StaticCell` —
the storage of both — is rejected (it panics instead of re-initializing). -/
theorem boot_provision_before_spawn_and_single_init :
    (∀ bbq : Bool,
      spawnsAfterProvision (mainBootEvents bbq) = true ∧
      (mainBootEvents bbq).count BootEvent.initPacketStore = 1 ∧
      (mainBootEvents bbq).count BootEvent.initExecutor = 1) ∧
    (∀ (A : Type) (v : A),
      StaticCell.init A ⟨true⟩ v = Outcome.panicked) := by
  constructor
  · decide
  · intro A v
    rfl

/-- Claim C7: the boot sequence is this strict order — diagnostic/global
state setup (with the log queue first when the log feature is on), peripheral
provisioning, the fixed 500 ms settle delay, the single packet-store
initialization in static storage, the single scheduler initialization in
static storage, the spawns of the network, protocol and sensor tasks (plus,
conditionally, the diagnostic-log-draining task), and finally running the
scheduler — and the running phase never transitions away (the scheduler call
never returns under normal operation). -/
theorem boot_sequence_strict_order :
    (∀ bbq : Bool,
      mainBootEvents bbq =
        if bbq then
          [BootEvent.initBbqQueue, .setupGlobals, .getPeripherals,
           .settleDelayMs 500, .initPacketStore, .initExecutor,
           .spawnTask .network, .spawnTask .protocol, .spawnTask .imu,
           .spawnTask .bbqLogger, .runScheduler]
        else
          [BootEvent.setupGlobals, .getPeripherals, .settleDelayMs 500,
           .initPacketStore, .initExecutor, .spawnTask .network,
           .spawnTask .protocol, .spawnTask .imu, .runScheduler]) ∧
    (∀ (bbq : Bool) (n : Nat),
      (stepPhase bbq)^[n] Phase.running = Phase.running) := by
  constructor
  · decide
  · intro bbq n
    induction n with
    | zero => rfl
    | succ k ih => rw [Function.iterate_succ_apply, stepPhase, ih]

/-- Claim C9, counterexample: the Stub's factory does not present the same
interface as the real sensor driver's factory — the described signatures
differ: the delay parameter widths differ (`DelayMs<u32>` vs `DelayMs<u8>`)
and the returned capability contracts differ (`FusedImu` vs `Imu`). -/
theorem factory_signatures_differ_cex :
    (stub_new_imu_sig == mpu6050_new_imu_sig) = false ∧
    (stub_new_imu_sig.delay_ms_width == mpu6050_new_imu_sig.delay_ms_width)
      = false ∧
    (stub_new_imu_sig.returns_impl == mpu6050_new_imu_sig.returns_impl)
      = false := by
  decide

/-- Claim C9, amended: the Stub's factory mirrors the real factory's shape —
both take an I2C capability and a mutable delay and return an opaque
implementation of an IMU capability trait — but not the same parameter types
or contract: the Stub takes `DelayMs<u32>` where the real driver takes
`DelayMs<u8>`, and returns `impl FusedImu` where the real driver returns
`impl Imu`, so a call site type-checks against both only if its delay value
implements both widths and it consumes the driver through the matching
trait. -/
theorem factory_signatures_shape :
    stub_new_imu_sig.takes_i2c = true ∧
    mpu6050_new_imu_sig.takes_i2c = true ∧
    stub_new_imu_sig.delay_ms_width = 32 ∧
    mpu6050_new_imu_sig.delay_ms_width = 8 ∧
    stub_new_imu_sig.returns_impl = ImuContract.fusedImu ∧
    mpu6050_new_imu_sig.returns_impl = ImuContract.imu := by
  decide

end SlimeVR
